import Mathlib

/-!
Verification of the cost-tracking module of the DealSignals repository
(`src/lib/costs.py`).

Modelling conventions:
* Python `float` values are modelled as exact rationals (`ℚ`); the decimal
  literals of the pricing table are exact in this model.
* Python `int` is modelled as `Int`.
* The wall-clock timestamp captured by `calculate_cost` is passed as an
  explicit `timestamp` argument, since the embedding is pure.
* The `ValueError` raised by `aggregate_costs` on an empty input (named
  `EmptyInputError` in the specification's failure taxonomy) is modelled by
  the `Except` monad.
* Python's `round(x, n)` (round half to even) is modelled by `pyRound` on
  the exact rational value.
* `save_costs` writes a JSON document; the embedding builds the JSON value
  (`Json` tree) that `json.dump` would serialise.
-/

/-- Cost tracking for a single LLM call (dataclass `CostEntry`). -/
structure CostEntry where
  model : String
  input_tokens : Int
  output_tokens : Int
  total_tokens : Int
  input_cost : ℚ
  output_cost : ℚ
  total_cost : ℚ
  latency_ms : Int
  timestamp : String
deriving DecidableEq, Repr

/-- Aggregated costs for an experiment run (dataclass `RunCosts`). -/
structure RunCosts where
  run_id : String
  entries : List CostEntry
  total_input_tokens : Int
  total_output_tokens : Int
  total_tokens : Int
  total_cost : ℚ
  total_latency_ms : Int
  avg_latency_ms : ℚ
  cost_per_question : ℚ
  model : String
  started_at : String
  completed_at : String
deriving DecidableEq, Repr

/-- A per-model price record (`{"input": ..., "output": ...}`). -/
structure Price where
  input : ℚ
  output : ℚ
deriving DecidableEq, Repr

/-- The `PRICING` table: price per 1M tokens, keyed by model identifier. -/
def PRICING : List (String × Price) :=
  [("claude-3-5-sonnet-20241022", ⟨3.00, 15.00⟩),
   ("claude-3-opus-20240229", ⟨15.00, 75.00⟩),
   ("claude-3-5-haiku-20241022", ⟨0.80, 4.00⟩),
   ("gpt-4o", ⟨2.50, 10.00⟩),
   ("gpt-4o-mini", ⟨0.15, 0.60⟩),
   ("gpt-4-turbo", ⟨10.00, 30.00⟩),
   ("gemini-1.5-pro", ⟨1.25, 5.00⟩),
   ("gemini-1.5-flash", ⟨0.075, 0.30⟩)]

/-- `calculate_cost` (the spec's `price_call`): cost of a single LLM call.
`PRICING.get(model, {"input": 0, "output": 0})` is `lookup` with default. -/
def calculate_cost (model : String) (input_tokens output_tokens : Int)
    (latency_ms : Int) (timestamp : String) : CostEntry :=
  let pricing := (PRICING.lookup model).getD ⟨0, 0⟩
  let input_cost : ℚ := ((input_tokens : ℚ) / 1000000) * pricing.input
  let output_cost : ℚ := ((output_tokens : ℚ) / 1000000) * pricing.output
  { model := model
    input_tokens := input_tokens
    output_tokens := output_tokens
    total_tokens := input_tokens + output_tokens
    input_cost := input_cost
    output_cost := output_cost
    total_cost := input_cost + output_cost
    latency_ms := latency_ms
    timestamp := timestamp }

/-- The failure taxonomy entry for aggregation over zero entries: the
`ValueError("No cost entries to aggregate")` raised by `aggregate_costs`,
called `EmptyInputError` in the specification. -/
inductive AggError where
  | emptyInputError
deriving DecidableEq, Repr

/-- `aggregate_costs`: aggregate cost entries into run-level totals.
`entries[-1]` on `e0 :: rest` is `rest.getLastD e0`. -/
def aggregate_costs (entries : List CostEntry) (run_id : String) :
    Except AggError RunCosts :=
  match entries with
  | [] => Except.error AggError.emptyInputError
  | e0 :: rest =>
    let es := e0 :: rest
    let total_input := (es.map CostEntry.input_tokens).sum
    let total_output := (es.map CostEntry.output_tokens).sum
    let total_cost := (es.map CostEntry.total_cost).sum
    let total_latency := (es.map CostEntry.latency_ms).sum
    Except.ok
      { run_id := run_id
        entries := es
        total_input_tokens := total_input
        total_output_tokens := total_output
        total_tokens := total_input + total_output
        total_cost := total_cost
        total_latency_ms := total_latency
        avg_latency_ms := (total_latency : ℚ) / (es.length : ℚ)
        cost_per_question := total_cost / (es.length : ℚ)
        model := e0.model
        started_at := e0.timestamp
        completed_at := (rest.getLastD e0).timestamp }

/-- A JSON value, as built by `save_costs` for `json.dump`. -/
inductive Json where
  | str : String → Json
  | int : Int → Json
  | num : ℚ → Json
  | arr : List Json → Json
  | obj : List (String × Json) → Json
deriving Repr

/-- Read a string out of an optional JSON value. -/
def Json.asStr : Option Json → Option String
  | some (Json.str s) => some s
  | _ => none

/-- Read an integer out of an optional JSON value. -/
def Json.asInt : Option Json → Option Int
  | some (Json.int n) => some n
  | _ => none

/-- Read a number out of an optional JSON value. -/
def Json.asNum : Option Json → Option ℚ
  | some (Json.num q) => some q
  | _ => none

/-- Python's built-in `round` to an integer: round half to even, modelled
on the exact rational value. -/
def pyRoundInt (q : ℚ) : Int :=
  let f := Int.floor q
  let frac := q - (f : ℚ)
  if frac < 1/2 then f
  else if 1/2 < frac then f + 1
  else if f % 2 = 0 then f else f + 1

/-- Python's `round(x, ndigits)` modelled on exact rationals. -/
def pyRound (q : ℚ) (ndigits : Nat) : ℚ :=
  (pyRoundInt (q * (10 : ℚ) ^ ndigits) : ℚ) / (10 : ℚ) ^ ndigits

/-- `dataclasses.asdict` on a `CostEntry`, as serialised inside the
`entries` section of the durable JSON. -/
def entry_to_json (e : CostEntry) : Json :=
  Json.obj
    [("model", Json.str e.model),
     ("input_tokens", Json.int e.input_tokens),
     ("output_tokens", Json.int e.output_tokens),
     ("total_tokens", Json.int e.total_tokens),
     ("input_cost", Json.num e.input_cost),
     ("output_cost", Json.num e.output_cost),
     ("total_cost", Json.num e.total_cost),
     ("latency_ms", Json.int e.latency_ms),
     ("timestamp", Json.str e.timestamp)]

/-- `save_costs`: the JSON document written for a `RunCosts` (the `data`
dict passed to `json.dump`; the file write itself is I/O and out of the
embedding). -/
def save_costs (costs : RunCosts) : Json :=
  Json.obj
    [("run_id", Json.str costs.run_id),
     ("model", Json.str costs.model),
     ("totals", Json.obj
       [("input_tokens", Json.int costs.total_input_tokens),
        ("output_tokens", Json.int costs.total_output_tokens),
        ("total_tokens", Json.int costs.total_tokens),
        ("total_cost_usd", Json.num (pyRound costs.total_cost 4)),
        ("total_latency_ms", Json.int costs.total_latency_ms)]),
     ("averages", Json.obj
       [("latency_ms", Json.num (pyRound costs.avg_latency_ms 2)),
        ("cost_per_question_usd", Json.num (pyRound costs.cost_per_question 6))]),
     ("timing", Json.obj
       [("started_at", Json.str costs.started_at),
        ("completed_at", Json.str costs.completed_at)]),
     ("entries", Json.arr (costs.entries.map entry_to_json))]

/-- Parse one serialised entry back into a `CostEntry`; fails when a
required field is missing or has the wrong shape. -/
def json_to_entry : Json → Option CostEntry
  | Json.obj fields => do
      let model ← Json.asStr (fields.lookup "model")
      let input_tokens ← Json.asInt (fields.lookup "input_tokens")
      let output_tokens ← Json.asInt (fields.lookup "output_tokens")
      let total_tokens ← Json.asInt (fields.lookup "total_tokens")
      let input_cost ← Json.asNum (fields.lookup "input_cost")
      let output_cost ← Json.asNum (fields.lookup "output_cost")
      let total_cost ← Json.asNum (fields.lookup "total_cost")
      let latency_ms ← Json.asInt (fields.lookup "latency_ms")
      let timestamp ← Json.asStr (fields.lookup "timestamp")
      pure { model := model, input_tokens := input_tokens,
             output_tokens := output_tokens, total_tokens := total_tokens,
             input_cost := input_cost, output_cost := output_cost,
             total_cost := total_cost, latency_ms := latency_ms,
             timestamp := timestamp }
  | _ => none

/-- Parse a serialised entry list element by element; fails when any
element is malformed. -/
def parse_entries : List Json → Option (List CostEntry)
  | [] => some []
  | x :: xs => do
      let e ← json_to_entry x
      let rest ← parse_entries xs
      pure (e :: rest)

/-- Modelled from the spec: the repository ships no loader under `src/`
(only `save_costs`), yet the spec's round-trip property reloads the durable
JSON; per the spec the entries list is preserved at full precision and a
document missing required fields fails (`MalformedRecordError`). This
loader reads back the `entries` section of a durable document. -/
def load_entries : Json → Option (List CostEntry)
  | Json.obj fields =>
      match fields.lookup "entries" with
      | some (Json.arr xs) => parse_entries xs
      | _ => none
  | _ => none

/-- Read a field of a named section of a durable JSON document. -/
def saved_field (j : Json) (sect key : String) : Option Json :=
  match j with
  | Json.obj fields =>
      match fields.lookup sect with
      | some (Json.obj sf) => sf.lookup key
      | _ => none
  | _ => none

/-- The round-trip property claimed by the specification, for one
`RunCosts` value: reloading the persisted document recovers the entries
exactly, re-aggregating the reloaded entries succeeds, and the recomputed
summary fields reproduce the persisted ones up to the persisted rounding. -/
def roundtrip_ok (rc : RunCosts) : Prop :=
  load_entries (save_costs rc) = some rc.entries ∧
  ∃ rc2, aggregate_costs rc.entries rc.run_id = Except.ok rc2 ∧
    Json.asInt (saved_field (save_costs rc) "totals" "input_tokens") =
      some rc2.total_input_tokens ∧
    Json.asInt (saved_field (save_costs rc) "totals" "output_tokens") =
      some rc2.total_output_tokens ∧
    Json.asInt (saved_field (save_costs rc) "totals" "total_tokens") =
      some rc2.total_tokens ∧
    Json.asInt (saved_field (save_costs rc) "totals" "total_latency_ms") =
      some rc2.total_latency_ms ∧
    Json.asNum (saved_field (save_costs rc) "totals" "total_cost_usd") =
      some (pyRound rc2.total_cost 4) ∧
    Json.asNum (saved_field (save_costs rc) "averages" "latency_ms") =
      some (pyRound rc2.avg_latency_ms 2) ∧
    Json.asNum (saved_field (save_costs rc) "averages" "cost_per_question_usd") =
      some (pyRound rc2.cost_per_question 6)

/-- A concrete cost entry used in counterexamples and witnesses. -/
def sampleEntry : CostEntry :=
  { model := "gpt-4o-mini", input_tokens := 1000, output_tokens := 2000,
    total_tokens := 3000, input_cost := 1, output_cost := 2, total_cost := 3,
    latency_ms := 100, timestamp := "2024-12-01T00:00:00" }

/-- The aggregate of `[sampleEntry]` under run id `"run-1"`. -/
def sampleRun : RunCosts :=
  { run_id := "run-1", entries := [sampleEntry], total_input_tokens := 1000,
    total_output_tokens := 2000, total_tokens := 3000, total_cost := 3,
    total_latency_ms := 100, avg_latency_ms := 100, cost_per_question := 3,
    model := "gpt-4o-mini", started_at := "2024-12-01T00:00:00",
    completed_at := "2024-12-01T00:00:00" }

/-- A `RunCosts` whose summary fields were not derived from its own
entries: its `total_cost` is `100`, though its single entry costs `3`. -/
def badRun : RunCosts :=
  { sampleRun with total_cost := 100 }

/-- C3: every entry built by `calculate_cost` satisfies
`total_tokens = input_tokens + output_tokens` exactly and
`total_cost = input_cost + output_cost` exactly, hence within the
floating-point tolerance `1e-9` stated by the specification. -/
theorem calculate_cost_entry_invariant (model : String)
    (input_tokens output_tokens latency_ms : Int) (timestamp : String) :
    (calculate_cost model input_tokens output_tokens latency_ms
      timestamp).total_tokens =
      (calculate_cost model input_tokens output_tokens latency_ms
        timestamp).input_tokens +
      (calculate_cost model input_tokens output_tokens latency_ms
        timestamp).output_tokens ∧
    (calculate_cost model input_tokens output_tokens latency_ms
      timestamp).total_cost =
      (calculate_cost model input_tokens output_tokens latency_ms
        timestamp).input_cost +
      (calculate_cost model input_tokens output_tokens latency_ms
        timestamp).output_cost ∧
    |(calculate_cost model input_tokens output_tokens latency_ms
        timestamp).total_cost -
      ((calculate_cost model input_tokens output_tokens latency_ms
          timestamp).input_cost +
        (calculate_cost model input_tokens output_tokens latency_ms
          timestamp).output_cost)| ≤ 1 / 1000000000 := by
  refine ⟨rfl, rfl, ?_⟩
  have h : (calculate_cost model input_tokens output_tokens latency_ms
      timestamp).total_cost =
      (calculate_cost model input_tokens output_tokens latency_ms
        timestamp).input_cost +
      (calculate_cost model input_tokens output_tokens latency_ms
        timestamp).output_cost := rfl
  rw [h, sub_self, abs_zero]
  norm_num

/-- C6: a model identifier absent from `PRICING` prices to zero: both
per-direction costs are `0`, hence the total is `0`, with no failure; in
particular for `"unknown-model-xyz"` with 1000 input and output tokens. -/
theorem calculate_cost_unknown_model (model : String)
    (input_tokens output_tokens latency_ms : Int) (timestamp : String)
    (h : PRICING.lookup model = none) :
    let e := calculate_cost model input_tokens output_tokens latency_ms timestamp
    e.input_cost = 0 ∧ e.output_cost = 0 ∧ e.total_cost = 0 := by
  simp only [calculate_cost, h]
  refine ⟨?_, ?_, ?_⟩ <;> simp [Option.getD]

/-- Witness for C6 at the spec's concrete input
`price_call("unknown-model-xyz", 1000, 1000)`. -/
theorem calculate_cost_unknown_model_witness :
    PRICING.lookup "unknown-model-xyz" = none ∧
    ((calculate_cost "unknown-model-xyz" 1000 1000 0 "t").input_cost = 0 ∧
     (calculate_cost "unknown-model-xyz" 1000 1000 0 "t").output_cost = 0 ∧
     (calculate_cost "unknown-model-xyz" 1000 1000 0 "t").total_cost = 0) :=
  ⟨by decide, calculate_cost_unknown_model "unknown-model-xyz" 1000 1000 0 "t"
    (by decide)⟩

/-- C8: `price_call("gpt-4o-mini", 1_000_000, 500_000, latency_ms=250)`
yields `input_cost = 0.15`, `output_cost = 0.30`, `total_cost = 0.45`. -/
theorem calculate_cost_gpt_4o_mini (timestamp : String) :
    (calculate_cost "gpt-4o-mini" 1000000 500000 250 timestamp).input_cost
        = 0.15 ∧
    (calculate_cost "gpt-4o-mini" 1000000 500000 250 timestamp).output_cost
        = 0.30 ∧
    (calculate_cost "gpt-4o-mini" 1000000 500000 250 timestamp).total_cost
        = 0.45 := by
  have hp : PRICING.lookup "gpt-4o-mini" = some ⟨0.15, 0.60⟩ := by
    simp [PRICING, List.lookup]
  refine ⟨?_, ?_, ?_⟩ <;>
    simp only [calculate_cost, hp, Option.getD_some] <;> norm_num

/-- `entries[-1]` of a non-empty list: `getLast` agrees with the
`getLastD`-based form used in `aggregate_costs`. -/
theorem getLast_cons_eq_getLastD (e0 : CostEntry) (rest : List CostEntry) :
    (e0 :: rest).getLast (List.cons_ne_nil e0 rest) = rest.getLastD e0 := by
  induction rest generalizing e0 with
  | nil => rfl
  | cons b l ih =>
    have h1 : (e0 :: b :: l).getLast (List.cons_ne_nil e0 (b :: l)) =
        (b :: l).getLast (List.cons_ne_nil b l) := rfl
    have h2 : (b :: l).getLastD e0 = l.getLastD b := List.getLastD_cons e0 b l
    rw [h1, h2]
    exact ih b

/-- C1: on every non-empty list, `aggregate_costs` returns a `RunCosts`
whose four totals are the sums of the corresponding per-entry fields and
whose averages divide `total_latency_ms` and `total_cost` by the entry
count. -/
theorem aggregate_costs_totals (e0 : CostEntry) (rest : List CostEntry)
    (run_id : String) :
    ∃ rc, aggregate_costs (e0 :: rest) run_id = Except.ok rc ∧
      rc.total_input_tokens = ((e0 :: rest).map CostEntry.input_tokens).sum ∧
      rc.total_output_tokens = ((e0 :: rest).map CostEntry.output_tokens).sum ∧
      rc.total_cost = ((e0 :: rest).map CostEntry.total_cost).sum ∧
      rc.total_latency_ms = ((e0 :: rest).map CostEntry.latency_ms).sum ∧
      rc.avg_latency_ms =
        (rc.total_latency_ms : ℚ) / ((e0 :: rest).length : ℚ) ∧
      rc.cost_per_question = rc.total_cost / ((e0 :: rest).length : ℚ) :=
  ⟨_, rfl, rfl, rfl, rfl, rfl, rfl, rfl⟩

/-- C2: aggregating an empty entry list fails with `EmptyInputError` (no
`RunCosts` is returned, in particular no zero-valued one), while every
non-empty list succeeds with some `RunCosts`. -/
theorem aggregate_costs_empty_vs_nonempty (run_id : String) (e0 : CostEntry)
    (rest : List CostEntry) :
    aggregate_costs [] run_id = Except.error AggError.emptyInputError ∧
    ∃ rc, aggregate_costs (e0 :: rest) run_id = Except.ok rc :=
  ⟨rfl, _, rfl⟩

/-- C5: on every non-empty list, `started_at` is the first element's
timestamp, `completed_at` the last element's timestamp, and `model` the
first element's model — taken from the sequence in the order given, with
no sorting and no same-model check (the list is arbitrary). -/
theorem aggregate_costs_metadata (e0 : CostEntry) (rest : List CostEntry)
    (run_id : String) :
    ∃ rc, aggregate_costs (e0 :: rest) run_id = Except.ok rc ∧
      rc.started_at = e0.timestamp ∧
      rc.completed_at =
        ((e0 :: rest).getLast (List.cons_ne_nil e0 rest)).timestamp ∧
      rc.model = e0.model :=
  ⟨_, rfl, rfl, by rw [getLast_cons_eq_getLastD], rfl⟩

/-- C9: `aggregate_costs` is a pure function of the entry list (the source
only reads the entries, mutating nothing), and the `entries` field of the
returned `RunCosts` is exactly the given sequence, element for element. -/
theorem aggregate_costs_preserves_entries (e0 : CostEntry)
    (rest : List CostEntry) (run_id : String) :
    ∃ rc, aggregate_costs (e0 :: rest) run_id = Except.ok rc ∧
      rc.entries = e0 :: rest :=
  ⟨_, rfl, rfl⟩

/-- C10: every `RunCosts` produced by `aggregate_costs` satisfies
`total_tokens = total_input_tokens + total_output_tokens`, recomputed from
the per-entry input and output sums; the entries are arbitrary, so this
holds even when an entry's own `total_tokens` field disagrees with its
`input_tokens + output_tokens`. -/
theorem aggregate_costs_total_tokens (e0 : CostEntry) (rest : List CostEntry)
    (run_id : String) :
    ∃ rc, aggregate_costs (e0 :: rest) run_id = Except.ok rc ∧
      rc.total_tokens = rc.total_input_tokens + rc.total_output_tokens ∧
      rc.total_tokens = ((e0 :: rest).map CostEntry.input_tokens).sum +
        ((e0 :: rest).map CostEntry.output_tokens).sum :=
  ⟨_, rfl, rfl, rfl⟩

/-- Serialising one entry and parsing it back loses nothing. -/
theorem json_to_entry_entry_to_json (e : CostEntry) :
    json_to_entry (entry_to_json e) = some e := rfl

/-- Serialising an entry list and parsing it back loses nothing. -/
theorem parse_entries_map (es : List CostEntry) :
    parse_entries (es.map entry_to_json) = some es := by
  induction es with
  | nil => rfl
  | cons e l ih => simp [parse_entries, json_to_entry_entry_to_json, ih]

/-- Reloading the entries section of a saved document recovers the
original entries list exactly. -/
theorem load_save_entries (rc : RunCosts) :
    load_entries (save_costs rc) = some rc.entries := by
  show parse_entries (rc.entries.map entry_to_json) = some rc.entries
  exact parse_entries_map rc.entries

/-- C7: the durable JSON document of any `RunCosts` has exactly the six
sections `run_id`, `model`, `totals`, `averages`, `timing` and `entries`;
`totals.total_cost_usd` is rounded to 4 decimal places,
`averages.latency_ms` to 2 and `averages.cost_per_question_usd` to 6; the
`entries` section carries every per-call field unrounded at full precision
(it parses back to the exact original entries). -/
theorem save_costs_shape (rc : RunCosts) :
    ∃ fields, save_costs rc = Json.obj fields ∧
      fields.map Prod.fst =
        ["run_id", "model", "totals", "averages", "timing", "entries"] ∧
      fields.lookup "run_id" = some (Json.str rc.run_id) ∧
      fields.lookup "model" = some (Json.str rc.model) ∧
      fields.lookup "totals" = some (Json.obj
        [("input_tokens", Json.int rc.total_input_tokens),
         ("output_tokens", Json.int rc.total_output_tokens),
         ("total_tokens", Json.int rc.total_tokens),
         ("total_cost_usd", Json.num (pyRound rc.total_cost 4)),
         ("total_latency_ms", Json.int rc.total_latency_ms)]) ∧
      fields.lookup "averages" = some (Json.obj
        [("latency_ms", Json.num (pyRound rc.avg_latency_ms 2)),
         ("cost_per_question_usd",
           Json.num (pyRound rc.cost_per_question 6))]) ∧
      fields.lookup "timing" = some (Json.obj
        [("started_at", Json.str rc.started_at),
         ("completed_at", Json.str rc.completed_at)]) ∧
      fields.lookup "entries" =
        some (Json.arr (rc.entries.map entry_to_json)) ∧
      load_entries (save_costs rc) = some rc.entries :=
  ⟨_, rfl, rfl, rfl, rfl, rfl, rfl, rfl, rfl, load_save_entries rc⟩

/-- C4 counterexample: the round-trip property does not hold for every
`RunCosts`. For `badRun`, re-aggregating the reloaded entries yields a
total cost of `3`, while the persisted `totals.total_cost_usd` is `100`. -/
theorem roundtrip_fails_badRun : ¬ roundtrip_ok badRun := by
  rintro ⟨-, rc2, hagg, -, -, -, -, hcost, -, -⟩
  have h1 : rc2.total_cost = 3 := by
    simp only [badRun, sampleRun, aggregate_costs] at hagg
    injection hagg with h
    subst h
    simp [sampleEntry]
  have h2 : Json.asNum (saved_field (save_costs badRun) "totals"
      "total_cost_usd") = some (pyRound 100 4) := rfl
  rw [h2, h1] at hcost
  have h3 : pyRound 100 4 = 100 := by norm_num [pyRound, pyRoundInt]
  have h4 : pyRound 3 4 = 3 := by norm_num [pyRound, pyRoundInt]
  rw [h3, h4] at hcost
  injection hcost with h5
  norm_num at h5

/-- C4 (amended): for every `RunCosts` produced by `aggregate_costs` (the
only constructor of `RunCosts` in the module), persisting it to the
durable JSON form and reloading yields an entries list identical per-entry
in all fields to the original, and re-running aggregation on the reloaded
entries reproduces the persisted summary fields up to the persisted
rounding precision. -/
theorem save_costs_roundtrip (entries : List CostEntry) (run_id : String)
    (rc : RunCosts) (h : aggregate_costs entries run_id = Except.ok rc) :
    roundtrip_ok rc := by
  cases entries with
  | nil => simp [aggregate_costs] at h
  | cons e0 rest =>
    simp only [aggregate_costs] at h
    injection h with h
    subst h
    exact ⟨load_save_entries _, _, rfl, rfl, rfl, rfl, rfl, rfl, rfl, rfl⟩

/-- Witness for the amended C4 at the concrete input `[sampleEntry]`,
`"run-1"`, whose aggregate is `sampleRun`. -/
theorem save_costs_roundtrip_witness :
    aggregate_costs [sampleEntry] "run-1" = Except.ok sampleRun ∧
    roundtrip_ok sampleRun := by
  have h : aggregate_costs [sampleEntry] "run-1" = Except.ok sampleRun := by
    simp [aggregate_costs, sampleEntry, sampleRun]
  exact ⟨h, save_costs_roundtrip [sampleEntry] "run-1" sampleRun h⟩
